import Mathlib

/-!
Verification of the Lanyard activity-notifier core (`src/main.py`,
class `LanyardActivityNotifier`) against its natural-language specification.

The Python code is shallowly embedded:
* JSON dictionary fields are `Option`-typed; `none` models a key that is
  absent or bound to `null` (both give `None`-like falsy behaviour at every
  read site of this program, except `activity.get("name", "Unknown")`,
  where the theorems below therefore assume the name is actually present).
* Python string truthiness (`if s:`) becomes `s ≠ ""` after `Option.getD ""`.
* `str.strip()` is modelled by `pyStrip` (drop leading and trailing
  whitespace), defined by structural recursion so that concrete instances
  evaluate inside the kernel.
* Configuration is modelled after `_get_filter_config`'s sanitised output
  (sets of stripped strings) and `_parse_enable_activities`' output
  (a set of ints, modelled as a list used only through membership).
-/

namespace Lanyard

/-- One reported activity, as read by the plugin from the wire payload
(`activity.get(...)` sites in `src/main.py`).  `largeText` models
`activity.get("assets", {}).get("large_text")`: `none` covers an absent or
empty `assets` dict as well as an absent/null `large_text`. -/
structure Activity where
  type : Option Int
  name : Option String
  details : Option String
  state : Option String
  largeText : Option String
  applicationId : Option String
deriving Repr, DecidableEq

/-- One presence snapshot (the `d` payload of a presence event).
`displayName` models `presence_data.get("discord_user", {}).get("display_name")`. -/
structure PresenceData where
  displayName : Option String
  discordStatus : Option String
  activities : List Activity
deriving Repr, DecidableEq

/-- The sanitised filter configuration returned by `_get_filter_config`:
a set of excluded application ids and a map from field name to the
application ids for which that field is suppressed. -/
structure FilterConfig where
  excludeAppIds : List String
  excludeFields : List (String × List String)
deriving Repr, DecidableEq

def OP_EVENT : Int := 0
def OP_HELLO : Int := 1
def OP_INITIALIZE : Int := 2
def OP_HEARTBEAT : Int := 3

/-- Python `str.strip()`: remove leading and trailing whitespace. -/
def pyStrip (s : String) : String :=
  ⟨((s.data.dropWhile Char.isWhitespace).reverse.dropWhile Char.isWhitespace).reverse⟩

/-- `_should_exclude_app`: empty/absent app id is never excluded; otherwise
membership of the stripped id in the excluded-application set. -/
def shouldExcludeApp (cfg : FilterConfig) (appId : String) : Bool :=
  if appId = "" then false
  else cfg.excludeAppIds.contains (pyStrip appId)

/-- `filter_config["exclude_fields"].get(field_name, [])`. -/
def excludeFieldsLookup (cfg : FilterConfig) (fieldName : String) : List String :=
  match cfg.excludeFields.find? (fun kv => kv.1 = fieldName) with
  | some kv => kv.2
  | none => []

/-- `_should_include_field`: a globally excluded application includes no
field; otherwise the field is included unless the stripped app id is in the
stripped per-field exclusion set. -/
def shouldIncludeField (cfg : FilterConfig) (fieldName : String) (appId : String) : Bool :=
  if shouldExcludeApp cfg appId then false
  else
    let appIdStr := if appId ≠ "" then (pyStrip appId) else ""
    let excludedSet := (excludeFieldsLookup cfg fieldName).map pyStrip
    ¬ excludedSet.contains appIdStr

/-- Loop body of `_generate_activity_fingerprint`: appends at most one
representative text for `activity` to the accumulator `acc`.
`enable` is the parsed `enable_activities` allow-list. -/
def fingerprintStep (enable : List Int) (acc : List String) (activity : Activity) :
    List String :=
  let activityType := activity.type.getD 6
  if ¬ enable.isEmpty ∧ ¬ activityType ∈ enable then acc
  else if activityType = 2 then
    let details := activity.details.getD ""
    if details ≠ "" then acc ++ [details] else acc
  else if activity.state = none then
    let details := activity.details.getD ""
    if details ≠ "" then acc ++ [details] else acc
  else if activity.details = none then
    let nm := activity.name.getD ""
    if nm ≠ "" then acc ++ [nm] else acc
  else
    let st := activity.state.getD ""
    if st ≠ "" then acc ++ [st] else acc

/-- `_generate_activity_fingerprint`: joins the accumulated representative
texts with `"|"`.  Note that it reads only the allow-list from the
configuration, never `_get_filter_config`. -/
def generateActivityFingerprint (enable : List Int) (p : PresenceData) : String :=
  String.intercalate "|" (p.activities.foldl (fingerprintStep enable) [])

/-- `_check_and_push_update` as a state transition: `last` is
`self._last_activities` (initially `none`), the returned `Bool` says whether
the snapshot is routed on to `_push_update`, and the returned `Option String`
is the new stored fingerprint. -/
def checkAndPush (enable : List Int) (last : Option String) (p : PresenceData) :
    Bool × Option String :=
  let fp := generateActivityFingerprint enable p
  if (some fp : Option String) = last then (false, last)
  else (true, some fp)

/-- The representative-text selection exactly as the specification words it:
type 2 uses `details`; else absent/null `state` uses `details`; else
absent/null `details` uses `name`; else `state`; empty or absent selections
are dropped. -/
def specSelectText (a : Activity) : Option String :=
  let sel : Option String :=
    if a.type.getD 6 = 2 then a.details
    else if a.state = none then a.details
    else if a.details = none then a.name
    else a.state
  match sel with
  | none => none
  | some s => if s = "" then none else some s

/-- Allow-list filter followed by the per-activity text selection: the
contribution of one activity to the specified fingerprint. -/
def fingerprintSelect (enable : List Int) (a : Activity) : Option String :=
  if ¬ enable.isEmpty ∧ ¬ a.type.getD 6 ∈ enable then none
  else specSelectText a

/-- The fingerprint as the specification describes it: allow-list filter,
per-activity selection by `specSelectText`, then a `"|"`-join in original
order. -/
def specFingerprint (enable : List Int) (p : PresenceData) : String :=
  String.intercalate "|" (p.activities.filterMap (fingerprintSelect enable))

/-- Result of `_format_activity_brief` when it does not return `None`:
either a bare string (type-4 custom status) or a (modifier, verb+content)
pair such as `("开始", "玩 Game | ...")`. -/
inductive ActivityBrief where
  | plain (s : String)
  | verb (modifier content : String)
deriving Repr, DecidableEq

/-- `_format_activity_brief`: renders one activity, or `none` when the
owning application is globally excluded (the Python `return None`). -/
def formatActivityBrief (cfg : FilterConfig) (a : Activity) : Option ActivityBrief :=
  let activityType := a.type.getD 6
  let activityName := a.name.getD "Unknown"
  let details := a.details.getD ""
  let state := a.state.getD ""
  let largeText := a.largeText.getD ""
  let appId := a.applicationId.getD ""
  if appId ≠ "" ∧ shouldExcludeApp cfg appId then none
  else if activityType = 0 then
    let parts := ["玩 " ++ activityName]
    let parts := if shouldIncludeField cfg "large_text" appId ∧ largeText ≠ ""
      then parts ++ [pyStrip largeText] else parts
    let parts := if shouldIncludeField cfg "state" appId ∧ state ≠ ""
      then parts ++ [pyStrip state] else parts
    let parts := if shouldIncludeField cfg "details" appId ∧ details ≠ ""
      then parts ++ [details] else parts
    some (.verb "开始" (String.intercalate " | " parts))
  else if activityType = 1 then
    some (.verb "开始" ("直播 " ++ activityName ++
      (if details ≠ "" ∧ shouldIncludeField cfg "details" appId
        then " (" ++ details ++ ")" else "")))
  else if activityType = 2 then
    if details ≠ "" ∧ state ≠ "" ∧ shouldIncludeField cfg "details" appId ∧
        shouldIncludeField cfg "state" appId then
      some (.verb "开始" ("听 " ++ details ++ " - " ++ state))
    else if details ≠ "" ∧ shouldIncludeField cfg "details" appId then
      some (.verb "开始" ("听 " ++ details))
    else if state ≠ "" ∧ shouldIncludeField cfg "state" appId then
      some (.verb "开始" ("听 " ++ state))
    else some (.verb "开始" ("听 " ++ activityName))
  else if activityType = 3 then
    some (.verb "开始" ("看 " ++ activityName ++
      (if details ≠ "" ∧ shouldIncludeField cfg "details" appId
        then " (" ++ details ++ ")" else "")))
  else if activityType = 4 then
    if state ≠ "" ∧ shouldIncludeField cfg "state" appId then some (.plain state)
    else some (.plain "自定义状态")
  else if activityType = 5 then
    some (.verb "开始" ("竞争 " ++ activityName ++
      (if details ≠ "" ∧ shouldIncludeField cfg "details" appId
        then " (" ++ details ++ ")" else "")))
  else
    some (.verb "开始" ("捣鼓 " ++ activityName))

/-- `_format_presence`: renders every surviving activity to one line and
joins with newlines; falls back to the Discord-status line when no line
survives.  (Both Python fallback sites produce the same status line, and
every element of `activities_info` yields a line, so the two-level
`if activities_info` / `if formatted_lines` structure collapses.) -/
def formatPresence (cfg : FilterConfig) (enable : List Int) (p : PresenceData) :
    String :=
  let username := p.displayName.getD "Unknown"
  let infos := p.activities.filterMap (fun a =>
    if ¬ enable.isEmpty ∧ ¬ a.type.getD 6 ∈ enable then none
    else formatActivityBrief cfg a)
  let lines := infos.filterMap (fun i =>
    match i with
    | .verb modifier content => some (username ++ " " ++ modifier ++ content ++ " 了")
    | .plain s => if s ≠ "" then some (username ++ " " ++ s ++ " 了") else none)
  if ¬ lines.isEmpty then String.intercalate "\n" lines
  else username ++ " 的 Discord 状态: " ++ p.discordStatus.getD "offline"

/-- The first frame received after connecting, as read by
`_connect_and_listen`: its `op` field and, from its `d` payload, the
`heartbeat_interval` field in milliseconds. -/
structure HelloFrame where
  op : Option Int
  heartbeatIntervalMs : Option Int
deriving Repr, DecidableEq

/-- The externally visible steps `_connect_and_listen` takes between
receiving the first frame and entering the listening loop. -/
inductive HSAction where
  | startHeartbeat (secs : ℚ)
  | sendInitialize (userId : String)
deriving Repr, DecidableEq

/-- The handshake portion of `_connect_and_listen`: a non-HELLO first frame
returns early (no further action); a HELLO frame starts the heartbeat task
with `d.heartbeat_interval` (default 30000) divided by 1000, then sends the
INITIALIZE subscription frame. -/
def handshakeActions (userId : String) (f : HelloFrame) : List HSAction :=
  if f.op ≠ some OP_HELLO then []
  else
    [HSAction.startHeartbeat ((f.heartbeatIntervalMs.getD 30000 : ℚ) / 1000),
     HSAction.sendInitialize userId]

/-- The `d` payload of an inbound frame, in the two shapes
`_handle_message` reads it with: an identity-keyed mapping of snapshots
(INIT_STATE) or a snapshot object (PRESENCE_UPDATE); `absent` is a missing
`d` key, which `data.get("d", {})` turns into an empty dict. -/
inductive Payload where
  | absent
  | initMap (entries : List (String × PresenceData))
  | pres (p : PresenceData)
deriving Repr, DecidableEq

/-- One decoded inbound frame as consumed by `_handle_message`. -/
structure InMessage where
  op : Option Int
  t : Option String
  d : Payload
deriving Repr, DecidableEq

/-- Python dict truthiness of a presence payload, for dicts that contain
only the keys this program reads: at least one relevant key present. -/
def presenceTruthy (p : PresenceData) : Bool :=
  p.displayName.isSome || p.discordStatus.isSome || ¬ p.activities.isEmpty

/-- `_handle_message`, as the snapshot it routes to
`_check_and_push_update` (`none` = nothing routed, no state change).
Non-EVENT frames are ignored.  For INIT_STATE the first value of the
mapping is routed only if the mapping is non-empty and that value is a
truthy dict.  For PRESENCE_UPDATE the payload itself is routed, with a
missing or mapping-shaped `d` amounting to the all-absent snapshot (such a
dict has none of the presence keys). -/
def handleMessage (m : InMessage) : Option PresenceData :=
  if m.op ≠ some OP_EVENT then none
  else if m.t = some "INIT_STATE" then
    match m.d with
    | .initMap [] => none
    | .initMap ((_, p) :: _) => if presenceTruthy p then some p else none
    | .absent => none
    | .pres _ => none
  else if m.t = some "PRESENCE_UPDATE" then
    match m.d with
    | .pres p => some p
    | .absent => some ⟨none, none, []⟩
    | .initMap _ => some ⟨none, none, []⟩
  else none

/-- `_parse_qq_groups` on a list of strings: strip, drop empties,
set semantics modelled by deduplication. -/
def parseQQGroups (value : List String) : List String :=
  ((value.map pyStrip).filter (fun s => s ≠ "")).dedup

/-- `_push_update`, as the list of (resolved origin, text) pairs handed to
the delivery collaborator: nothing when no group is configured or the
formatted text is falsy; otherwise the zero-width-space-wrapped text for
every group whose `unified_msg_origin` is cached (`umo`). -/
def pushUpdateSends (cfg : FilterConfig) (enable : List Int)
    (qqGroupsCfg : List String) (umo : String → Option String)
    (p : PresenceData) : List (String × String) :=
  let qqGroups := parseQQGroups qqGroupsCfg
  if qqGroups.isEmpty then []
  else
    let text := formatPresence cfg enable p
    if text = "" then []
    else
      let wrapped := "\u200B" ++ text ++ "\u200B"
      qqGroups.filterMap (fun g => (umo g).map (fun u => (u, wrapped)))

/-! ## Helper lemmas -/

/-- One loop iteration of the fingerprint appends exactly the specified
selection for that activity. -/
lemma fingerprintStep_eq_append (enable : List Int) (acc : List String)
    (a : Activity) :
    fingerprintStep enable acc a = acc ++ (fingerprintSelect enable a).toList := by
  unfold fingerprintStep fingerprintSelect specSelectText
  by_cases hfilter : ¬ enable.isEmpty ∧ ¬ a.type.getD 6 ∈ enable
  · simp [hfilter]
  · simp only [if_neg hfilter]
    by_cases h2 : a.type.getD 6 = 2
    · simp only [if_pos h2]
      cases hd : a.details with
      | none => simp
      | some s => by_cases hs : s = "" <;> simp [hs]
    · simp only [if_neg h2]
      by_cases hstate : a.state = none
      · simp only [if_pos hstate]
        cases hd : a.details with
        | none => simp
        | some s => by_cases hs : s = "" <;> simp [hs]
      · simp only [if_neg hstate]
        by_cases hdetails : a.details = none
        · simp only [if_pos hdetails]
          cases hn : a.name with
          | none => simp
          | some s => by_cases hs : s = "" <;> simp [hs]
        · simp only [if_neg hdetails]
          cases hst : a.state with
          | none => exact absurd hst hstate
          | some s => by_cases hs : s = "" <;> simp [hs]

/-- The fingerprint fold is the `filterMap` of the specified selection. -/
lemma foldl_fingerprintStep (enable : List Int) (l : List Activity)
    (acc : List String) :
    l.foldl (fingerprintStep enable) acc
      = acc ++ l.filterMap (fingerprintSelect enable) := by
  induction l generalizing acc with
  | nil => simp
  | cons a l ih =>
    rw [List.foldl_cons, ih, fingerprintStep_eq_append, List.filterMap_cons]
    cases h : fingerprintSelect enable a <;> simp [h]

lemma intercalate_singleton_eq (sep x : String) : String.intercalate sep [x] = x :=
  rfl

lemma append_ite_singleton {c : Prop} [Decidable c] (l : List String) (x : String) :
    (if c then l ++ [x] else l) = l ++ (if c then [x] else []) := by
  split <;> simp

/-- Normal form of `_format_activity_brief` on a type-0 activity that is
not dropped by the global application exclusion. -/
lemma formatActivityBrief_type0 (cfg : FilterConfig) (a : Activity)
    (htype : a.type.getD 6 = 0)
    (hglob : ¬ (a.applicationId.getD "" ≠ "" ∧
      shouldExcludeApp cfg (a.applicationId.getD ""))) :
    formatActivityBrief cfg a = some (.verb "开始" (String.intercalate " | "
      (["玩 " ++ a.name.getD "Unknown"]
        ++ (if shouldIncludeField cfg "large_text" (a.applicationId.getD "") ∧
              a.largeText.getD "" ≠ ""
            then [pyStrip (a.largeText.getD "")] else [])
        ++ (if shouldIncludeField cfg "state" (a.applicationId.getD "") ∧
              a.state.getD "" ≠ ""
            then [pyStrip (a.state.getD "")] else [])
        ++ (if shouldIncludeField cfg "details" (a.applicationId.getD "") ∧
              a.details.getD "" ≠ ""
            then [a.details.getD ""] else [])))) := by
  by_cases hlt : shouldIncludeField cfg "large_text" (a.applicationId.getD "") = true ∧
      ¬ a.largeText.getD "" = ""
  <;> by_cases hst : shouldIncludeField cfg "state" (a.applicationId.getD "") = true ∧
      ¬ a.state.getD "" = ""
  <;> by_cases hdt : shouldIncludeField cfg "details" (a.applicationId.getD "") = true ∧
      ¬ a.details.getD "" = ""
  <;> simp only [formatActivityBrief]
  <;> rw [if_neg hglob, htype]
  <;> simp [hlt, hst, hdt]

/-- `_format_activity_brief` drops an activity whose non-empty owning
application id is globally excluded. -/
lemma formatActivityBrief_excluded (cfg : FilterConfig) (a : Activity)
    (appId : String) (happ : a.applicationId = some appId) (hne : appId ≠ "")
    (hexcl : shouldExcludeApp cfg appId = true) :
    formatActivityBrief cfg a = none := by
  simp only [formatActivityBrief, happ, Option.getD_some]
  rw [if_pos ⟨hne, hexcl⟩]

/-- `_format_presence` falls back to the status line when every activity is
dropped by the allow-list or by `_format_activity_brief`. -/
lemma formatPresence_fallback (cfg : FilterConfig) (enable : List Int)
    (p : PresenceData)
    (h : ∀ a ∈ p.activities,
      (¬ enable.isEmpty ∧ ¬ a.type.getD 6 ∈ enable) ∨
        formatActivityBrief cfg a = none) :
    formatPresence cfg enable p =
      p.displayName.getD "Unknown" ++ " 的 Discord 状态: " ++
        p.discordStatus.getD "offline" := by
  unfold formatPresence
  have hinfos : p.activities.filterMap (fun a =>
      if ¬ enable.isEmpty ∧ ¬ a.type.getD 6 ∈ enable then none
      else formatActivityBrief cfg a) = [] := by
    rw [List.filterMap_eq_nil_iff]
    intro a ha
    rcases h a ha with h1 | h2
    · simp [h1]
    · by_cases hc : ¬ enable.isEmpty ∧ ¬ a.type.getD 6 ∈ enable
      · simp [hc]
      · simp [hc, h2]
  rw [hinfos]
  simp

/-! ## Claim theorems -/

/-- C1: for every snapshot and every configured activity-type allow-list,
the fingerprint skips activities whose type misses a non-empty allow-list,
selects one representative text per remaining activity with the precedence
"type 2 ⇒ details; else state absent/null ⇒ details; else details
absent/null ⇒ name; else state", drops empty/absent selections, and joins
the rest in original order with `"|"`. -/
theorem fingerprint_matches_spec (enable : List Int) (p : PresenceData) :
    generateActivityFingerprint enable p = specFingerprint enable p := by
  unfold generateActivityFingerprint specFingerprint
  rw [foldl_fingerprintStep]
  rfl

/-- C3: from the startup state (stored fingerprint unset), evaluating the
same snapshot twice routes it onward exactly once: the first call emits and
stores the computed fingerprint, the second call suppresses and leaves the
stored fingerprint unchanged. -/
theorem evaluate_twice_emits_once (enable : List Int) (p : PresenceData) :
    (checkAndPush enable none p).1 = true ∧
    (checkAndPush enable none p).2 = some (generateActivityFingerprint enable p) ∧
    (checkAndPush enable (checkAndPush enable none p).2 p).1 = false ∧
    (checkAndPush enable (checkAndPush enable none p).2 p).2 =
      (checkAndPush enable none p).2 := by
  simp [checkAndPush]

/-- C4: the very first change-detector evaluation after startup always
emits, for every snapshot — the stored fingerprint starts as the unset
sentinel `none`, which no computed fingerprint (a `some` string, even the
empty one) equals. -/
theorem first_evaluation_always_emits (enable : List Int) (p : PresenceData) :
    (checkAndPush enable none p).1 = true := by
  simp [checkAndPush]

/-- C5: a first frame whose operation code is not HELLO aborts the attempt
with no INITIALIZE frame sent and no heartbeat started; a HELLO first frame
starts the heartbeat with `d.heartbeat_interval` milliseconds (default
30000) divided by 1000 and then sends the INITIALIZE frame. -/
theorem handshake_hello_gate (userId : String) (f : HelloFrame) :
    (f.op ≠ some OP_HELLO →
      HSAction.sendInitialize userId ∉ handshakeActions userId f ∧
      ∀ secs : ℚ, HSAction.startHeartbeat secs ∉ handshakeActions userId f) ∧
    (f.op = some OP_HELLO →
      handshakeActions userId f =
        [HSAction.startHeartbeat ((f.heartbeatIntervalMs.getD 30000 : ℚ) / 1000),
         HSAction.sendInitialize userId]) := by
  constructor
  · intro h
    simp [handshakeActions, h]
  · intro h
    simp [handshakeActions, h]

/-- Witness for C5: an EVENT-coded first frame produces no actions at all;
a HELLO frame with no `heartbeat_interval` field starts the heartbeat at
30 seconds and then subscribes. -/
theorem handshake_hello_gate_witness :
    (HSAction.sendInitialize "1234" ∉ handshakeActions "1234" ⟨some OP_EVENT, none⟩ ∧
      ∀ secs : ℚ, HSAction.startHeartbeat secs ∉
        handshakeActions "1234" ⟨some OP_EVENT, none⟩) ∧
    handshakeActions "1234" ⟨some OP_HELLO, none⟩ =
      [HSAction.startHeartbeat ((30000 : ℚ) / 1000), HSAction.sendInitialize "1234"] := by
  refine ⟨(handshake_hello_gate "1234" ⟨some OP_EVENT, none⟩).1 (by decide), ?_⟩
  exact (handshake_hello_gate "1234" ⟨some OP_HELLO, none⟩).2 rfl

/-- C8: when the activity list is empty or no activity survives the
allow-list / exclusion filtering, the formatter returns the status line,
with `"offline"` substituted for an absent status. -/
theorem no_survivors_status_fallback (cfg : FilterConfig) (enable : List Int)
    (p : PresenceData)
    (h : ∀ a ∈ p.activities,
      (¬ enable.isEmpty ∧ ¬ a.type.getD 6 ∈ enable) ∨
        formatActivityBrief cfg a = none) :
    formatPresence cfg enable p =
      p.displayName.getD "Unknown" ++ " 的 Discord 状态: " ++
        p.discordStatus.getD "offline" :=
  formatPresence_fallback cfg enable p h

/-- Witness for C8: a snapshot with no activities and status `"idle"`
formats to the status line mentioning `"idle"`. -/
theorem no_survivors_status_fallback_witness :
    formatPresence ⟨[], []⟩ [] ⟨some "Alice", some "idle", []⟩ =
      "Alice" ++ " 的 Discord 状态: " ++ "idle" := by
  exact no_survivors_status_fallback ⟨[], []⟩ [] ⟨some "Alice", some "idle", []⟩
    (by intro a ha; simp at ha)

/-- C6: formatting a type-0 activity whose application id is excluded for
the field `"details"` (but not globally excluded) never includes the
activity's details text — the output is unchanged if the details are
removed — while it still includes the name and the unexcluded
`large_text`/`state` contributions. -/
theorem details_exclusion_suppresses_details (cfg : FilterConfig) (a : Activity)
    (appId : String)
    (htype : a.type.getD 6 = 0)
    (happ : a.applicationId = some appId)
    ( _hne : appId ≠ "")
    (hglob : shouldExcludeApp cfg appId = false)
    (hexcl : shouldIncludeField cfg "details" appId = false) :
    formatActivityBrief cfg a =
      formatActivityBrief cfg
        ⟨a.type, a.name, none, a.state, a.largeText, a.applicationId⟩ ∧
    formatActivityBrief cfg a = some (.verb "开始" (String.intercalate " | "
      (["玩 " ++ a.name.getD "Unknown"]
        ++ (if shouldIncludeField cfg "large_text" appId ∧ a.largeText.getD "" ≠ ""
            then [pyStrip (a.largeText.getD "")] else [])
        ++ (if shouldIncludeField cfg "state" appId ∧ a.state.getD "" ≠ ""
            then [pyStrip (a.state.getD "")] else [])))) := by
  have happ' : a.applicationId.getD "" = appId := by rw [happ]; rfl
  have hglob' : ¬ (a.applicationId.getD "" ≠ "" ∧
      shouldExcludeApp cfg (a.applicationId.getD "")) := by
    rw [happ', hglob]
    simp
  have h1 := formatActivityBrief_type0 cfg a htype hglob'
  have h2 := formatActivityBrief_type0 cfg
    ⟨a.type, a.name, none, a.state, a.largeText, a.applicationId⟩ htype hglob'
  constructor
  · rw [h1, h2]
    simp [happ', hexcl]
  · rw [h1]
    simp [happ', hexcl]

/-- Witness for C6: app `"123"` excluded for `"details"`; the details text
`"Level 3"` is dropped while name, large text and state are kept. -/
theorem details_exclusion_suppresses_details_witness :
    formatActivityBrief ⟨[], [("details", ["123"])]⟩
        ⟨some 0, some "Game", some "Level 3", some "Winning", some "Big", some "123"⟩
      = some (.verb "开始" "玩 Game | Big | Winning") := by
  have h := details_exclusion_suppresses_details ⟨[], [("details", ["123"])]⟩
    ⟨some 0, some "Game", some "Level 3", some "Winning", some "Big", some "123"⟩
    "123" (by decide) rfl (by decide) (by decide) (by decide)
  rw [h.2]
  decide

/-- C7: a type-0 activity that survives filtering with no applicable
exclusions formats as the display name, `"开始"`, then `"玩 name"` with the
present `large_text`, `state`, `details` appended in that order joined by
`" | "`, and the suffix `" 了"`. -/
theorem type0_no_exclusions_line (cfg : FilterConfig) (enable : List Int)
    (uname status : Option String) (a : Activity)
    (henable : enable.isEmpty ∨ (0 : Int) ∈ enable)
    (htype : a.type.getD 6 = 0)
    (hglob : shouldExcludeApp cfg (a.applicationId.getD "") = false)
    (hlt : shouldIncludeField cfg "large_text" (a.applicationId.getD "") = true)
    (hst : shouldIncludeField cfg "state" (a.applicationId.getD "") = true)
    (hdt : shouldIncludeField cfg "details" (a.applicationId.getD "") = true) :
    formatPresence cfg enable ⟨uname, status, [a]⟩ =
      uname.getD "Unknown" ++ " " ++ "开始" ++ String.intercalate " | "
        (["玩 " ++ a.name.getD "Unknown"]
          ++ (if a.largeText.getD "" ≠ "" then [pyStrip (a.largeText.getD "")] else [])
          ++ (if a.state.getD "" ≠ "" then [pyStrip (a.state.getD "")] else [])
          ++ (if a.details.getD "" ≠ "" then [a.details.getD ""] else []))
        ++ " 了" := by
  have hglob' : ¬ (a.applicationId.getD "" ≠ "" ∧
      shouldExcludeApp cfg (a.applicationId.getD "")) := by
    rw [hglob]
    simp
  have hbrief := formatActivityBrief_type0 cfg a htype hglob'
  have hfilter : ¬ (¬ enable.isEmpty ∧ ¬ a.type.getD 6 ∈ enable) := by
    rw [htype]
    rcases henable with h | h
    · simp [h]
    · simp [h]
  unfold formatPresence
  simp only [List.filterMap_cons, List.filterMap_nil, if_neg hfilter, hbrief, hlt, hst,
    hdt, true_and]
  rw [if_pos (by simp)]
  rw [intercalate_singleton_eq]

/-- Witness for C7: Alice playing `{type 0, name "Game", details "Level 3",
state "Winning"}` with no exclusions yields
`"Alice 开始玩 Game | Winning | Level 3 了"`. -/
theorem type0_no_exclusions_line_witness :
    formatPresence ⟨[], []⟩ []
        ⟨some "Alice", some "online",
          [⟨some 0, some "Game", some "Level 3", some "Winning", none, none⟩]⟩
      = "Alice 开始玩 Game | Winning | Level 3 了" := by
  have h := type0_no_exclusions_line ⟨[], []⟩ [] (some "Alice") (some "online")
    ⟨some 0, some "Game", some "Level 3", some "Winning", none, none⟩
    (Or.inl (by decide)) (by decide) (by decide) (by decide) (by decide) (by decide)
  rw [h]
  decide

/-- Counterexample to C2: with application `"123"` in the excluded set and
a snapshot whose sole activity is owned by `"123"`, the fingerprint is
`"Winning"`, not the empty fingerprint of an activity-free snapshot — the
fingerprint ignores the excluded-application set (which is not even an
input of `_generate_activity_fingerprint`), so the claim's fingerprint
half is false on the code even though its formatter half holds. -/
theorem excluded_app_still_fingerprints :
    shouldExcludeApp ⟨["123"], []⟩ "123" = true ∧
    generateActivityFingerprint []
        ⟨some "Alice", some "online",
          [⟨some 0, some "Game", some "Level 3", some "Winning", none, some "123"⟩]⟩
      = "Winning" ∧
    generateActivityFingerprint [] ⟨some "Alice", some "online", []⟩ = "" ∧
    ("Winning" : String) ≠ "" := by
  refine ⟨by decide, by decide, by decide, by decide⟩

/-- C2 as amended: a snapshot whose sole activity has a non-empty owning
application id in the excluded set contributes nothing to the formatted
text — the formatter falls back to the status line — but the activity still
contributes its selected text to the change fingerprint, which applies only
the activity-type allow-list. -/
theorem excluded_app_formatter_fallback (cfg : FilterConfig) (enable : List Int)
    (p : PresenceData) (a : Activity) (appId : String) (s : String)
    (hact : p.activities = [a])
    (happ : a.applicationId = some appId)
    (hne : appId ≠ "")
    (hexcl : shouldExcludeApp cfg appId = true)
    (hsel : fingerprintSelect enable a = some s) :
    formatPresence cfg enable p =
      p.displayName.getD "Unknown" ++ " 的 Discord 状态: " ++
        p.discordStatus.getD "offline" ∧
    generateActivityFingerprint enable p = s := by
  constructor
  · refine formatPresence_fallback cfg enable p ?_
    intro x hx
    rw [hact] at hx
    simp only [List.mem_singleton] at hx
    subst hx
    exact Or.inr (formatActivityBrief_excluded cfg x appId happ hne hexcl)
  · unfold generateActivityFingerprint
    rw [hact]
    simp only [List.foldl_cons, List.foldl_nil]
    rw [fingerprintStep_eq_append, hsel]
    rfl

/-- Witness for the amended C2: the excluded app `"123"`'s sole activity
falls out of the formatted text (status-line fallback) yet its state text
`"Winning"` is the whole fingerprint. -/
theorem excluded_app_formatter_fallback_witness :
    formatPresence ⟨["123"], []⟩ []
        ⟨some "Alice", some "online",
          [⟨some 0, some "Game", some "Level 3", some "Winning", none, some "123"⟩]⟩
      = "Alice 的 Discord 状态: online" ∧
    generateActivityFingerprint []
        ⟨some "Alice", some "online",
          [⟨some 0, some "Game", some "Level 3", some "Winning", none, some "123"⟩]⟩
      = "Winning" := by
  have h := excluded_app_formatter_fallback ⟨["123"], []⟩ []
    ⟨some "Alice", some "online",
      [⟨some 0, some "Game", some "Level 3", some "Winning", none, some "123"⟩]⟩
    ⟨some 0, some "Game", some "Level 3", some "Winning", none, some "123"⟩
    "123" "Winning" rfl rfl (by decide) (by decide) (by decide)
  refine ⟨?_, h.2⟩
  rw [h.1]
  decide

/-- Counterexample to C9: an INIT_STATE frame whose payload is a non-empty
mapping with a single entry whose value is the empty presence object routes
nothing — the claim says the mapping's single value is routed whenever the
mapping is non-empty, but `_handle_message` additionally requires the value
to be truthy (`if presence_data:`). -/
theorem init_state_empty_value_not_routed :
    handleMessage ⟨some OP_EVENT, some "INIT_STATE",
        .initMap [("123", ⟨none, none, []⟩)]⟩ = none ∧
    handleMessage ⟨some OP_EVENT, some "INIT_STATE",
        .initMap [("123", ⟨none, none, []⟩)]⟩
      ≠ some ⟨none, none, []⟩ ∧
    ([("123", (⟨none, none, []⟩ : PresenceData))] : List (String × PresenceData))
      ≠ [] := by
  refine ⟨by decide, by decide, by decide⟩

/-- C9 as amended: a frame whose operation code is not EVENT is ignored;
an INIT_STATE frame routes the first value of its identity-keyed mapping
when the mapping is non-empty and that value is a non-empty object, and
routes nothing when the mapping is empty; a PRESENCE_UPDATE frame routes
its payload directly. -/
theorem handle_message_routing (m : InMessage) :
    (m.op ≠ some OP_EVENT → handleMessage m = none) ∧
    (∀ id p rest, m.op = some OP_EVENT → m.t = some "INIT_STATE" →
      m.d = .initMap ((id, p) :: rest) →
      handleMessage m = if presenceTruthy p then some p else none) ∧
    (m.op = some OP_EVENT → m.t = some "INIT_STATE" → m.d = .initMap [] →
      handleMessage m = none) ∧
    (∀ p, m.op = some OP_EVENT → m.t = some "PRESENCE_UPDATE" → m.d = .pres p →
      handleMessage m = some p) := by
  refine ⟨?_, ?_, ?_, ?_⟩
  · intro h
    simp [handleMessage, h]
  · intro id p rest hop ht hd
    simp [handleMessage, hop, ht, hd]
  · intro hop ht hd
    simp [handleMessage, hop, ht, hd]
  · intro p hop ht hd
    simp [handleMessage, hop, ht, hd]

/-- Witness for the amended C9: a HELLO frame is ignored; a singleton
INIT_STATE mapping with a truthy value routes that value; a
PRESENCE_UPDATE frame routes its payload. -/
theorem handle_message_routing_witness :
    handleMessage ⟨some OP_HELLO, none, .absent⟩ = none ∧
    handleMessage ⟨some OP_EVENT, some "INIT_STATE",
        .initMap [("9", ⟨some "Alice", none, []⟩)]⟩ = some ⟨some "Alice", none, []⟩ ∧
    handleMessage ⟨some OP_EVENT, some "PRESENCE_UPDATE",
        .pres ⟨none, some "idle", []⟩⟩ = some ⟨none, some "idle", []⟩ := by
  refine ⟨?_, ?_, ?_⟩
  · exact (handle_message_routing ⟨some OP_HELLO, none, .absent⟩).1 (by decide)
  · rw [(handle_message_routing _).2.1 "9" ⟨some "Alice", none, []⟩ [] rfl rfl rfl]
    decide
  · exact (handle_message_routing _).2.2.2 ⟨none, some "idle", []⟩ rfl rfl rfl

/-- C10: every (origin, text) pair `_push_update` hands to the delivery
collaborator carries the formatted text wrapped in one zero-width space
(U+200B) on each side — never the formatter's output verbatim. -/
theorem push_wraps_zero_width (cfg : FilterConfig) (enable : List Int)
    (qqGroupsCfg : List String) (umo : String → Option String) (p : PresenceData)
    (s : String × String)
    (hs : s ∈ pushUpdateSends cfg enable qqGroupsCfg umo p) :
    s.2 = "\u200B" ++ formatPresence cfg enable p ++ "\u200B" ∧
    s.2 ≠ formatPresence cfg enable p := by
  simp only [pushUpdateSends] at hs
  by_cases h1 : (parseQQGroups qqGroupsCfg).isEmpty = true
  · rw [if_pos h1] at hs
    simp at hs
  · rw [if_neg h1] at hs
    by_cases h2 : formatPresence cfg enable p = ""
    · rw [if_pos h2] at hs
      simp at hs
    · rw [if_neg h2] at hs
      have hsnd : s.2 = "\u200B" ++ formatPresence cfg enable p ++ "\u200B" := by
        rcases List.mem_filterMap.mp hs with ⟨g, _, hmap⟩
        cases hu : umo g with
        | none => rw [hu] at hmap; simp at hmap
        | some u =>
          rw [hu] at hmap
          have h3 : some (u, "\u200B" ++ formatPresence cfg enable p ++ "\u200B")
              = some s := hmap
          rw [← Option.some_inj.mp h3]
      refine ⟨hsnd, ?_⟩
      rw [hsnd]
      intro hEq
      have hz : ("\u200B" : String).length = 1 := rfl
      have hlen := congrArg String.length hEq
      rw [String.length_append, String.length_append, hz] at hlen
      omega

/-- Witness for C10: with one configured group whose origin is cached, the
delivered text is the status line wrapped in zero-width spaces, and differs
from the raw formatted text. -/
theorem push_wraps_zero_width_witness :
    (("umo-g1", "\u200B" ++ "Alice 的 Discord 状态: offline" ++ "\u200B") :
        String × String).2
      = "\u200B" ++ formatPresence ⟨[], []⟩ [] ⟨some "Alice", none, []⟩ ++ "\u200B" ∧
    (("umo-g1", "\u200B" ++ "Alice 的 Discord 状态: offline" ++ "\u200B") :
        String × String).2
      ≠ formatPresence ⟨[], []⟩ [] ⟨some "Alice", none, []⟩ :=
  push_wraps_zero_width ⟨[], []⟩ [] ["g1"] (fun _ => some "umo-g1")
    ⟨some "Alice", none, []⟩
    ("umo-g1", "\u200B" ++ "Alice 的 Discord 状态: offline" ++ "\u200B")
    (by decide)

end Lanyard
